import Mathlib

/-!
Verification development for the `My_sci_proj` repository.

The repository contains four Python files:
* `Py_processeor.py` — a folder watcher that polls a directory for images,
  captions each new image with a BLIP model, OCRs it, plays the caption via
  TTS, moves the file, appends a row to five parallel in-memory lists,
  rewrites a CSV from those lists and rewrites a Google Sheet (clear then
  update), and finally records the file in a `processed_files` set;
* `POC_With_TTS_&_Preset_images.py` and `Preset_image_Website.py` — two
  Streamlit apps with preset/upload/URL/camera image sources, a `safe(fn)`
  exception suppressor, and a per-session `processed` list;
* `Py_processor_image_link.py` — a third Streamlit app with a
  `processed_images` list and try/except error handling.

The embedding below translates the state-manipulating parts of those files.
Python callables that may raise are embedded as values of `Except String α`
(`.ok v` = the call returned `v`; `.error e` = the call raised exception `e`);
exceptions a handler does not catch show up as an `Except.error` result of the
handler itself.  The point in the watcher's per-file try-block at which an
exception is raised (if any) is named by `FailAt`; the state effects and the
event trace of the block are computed from it exactly as the straight-line
Python code dictates: the statements before the failing one have happened,
the failing one and everything after it have not, and the `except` arm only
notifies and continues.
-/

namespace SciProj

/-- Predicate: `xs` grows to `ys`, that is, `ys` is `xs` with zero or more elements appended at
the end.  Used to state append-only properties. -/
def growsTo {α : Type} (xs ys : List α) : Prop := ∃ t, ys = xs ++ t

theorem growsTo_refl {α : Type} (xs : List α) : growsTo xs xs := ⟨[], by simp⟩

theorem growsTo_trans {α : Type} {xs ys zs : List α}
    (h1 : growsTo xs ys) (h2 : growsTo ys zs) : growsTo xs zs := by
  obtain ⟨t1, rfl⟩ := h1
  obtain ⟨t2, rfl⟩ := h2
  exact ⟨t1 ++ t2, by simp⟩

theorem growsTo_nil {α : Type} (xs : List α) : growsTo [] xs := ⟨xs, by simp⟩

theorem growsTo_append {α : Type} (xs t : List α) : growsTo xs (xs ++ t) := ⟨t, rfl⟩

theorem growsTo_cons {α : Type} (a : α) {xs ys : List α} (h : growsTo xs ys) :
    growsTo (a :: xs) (a :: ys) := by
  obtain ⟨t, rfl⟩ := h
  exact ⟨t, by simp⟩

/-- The function `safe` from `POC_With_TTS_&_Preset_images.py` lines 23–27 and
`Preset_image_Website.py` lines 22–26:
```
def safe(fn):
    try:
        return fn()
    except Exception:
        return None
```
A Python callable that may raise is embedded as `fn : Unit → Except String α`.
The `Option α` codomain records that `safe` itself never raises: a raised
`Exception` becomes `none` (Python `None`). -/
def safe {α : Type} (fn : Unit → Except String α) : Option α :=
  match fn () with
  | Except.ok v => some v
  | Except.error _ => none

/-! ## The folder watcher: `Py_processeor.py` -/

namespace Watcher

/-- Helper: drop leading whitespace characters, as Python `str.strip` does
at the front of a string. -/
def stripLead : List Char → List Char
  | [] => []
  | c :: cs => if c.isWhitespace then stripLead cs else c :: cs

/-- The function `clean_text` from `Py_processeor.py`:
`text.replace("\n", " ").replace("\r", " ").strip()`, rendered character by
character (both replaced substrings are single characters, so replacing them
is a character map; `strip()` drops whitespace from both ends). -/
def clean_text (text : String) : String :=
  ⟨(stripLead
      ((stripLead
        ((text.data.map fun c =>
          if c = '\n' || c = '\x0d' then ' ' else c).reverse)).reverse))⟩

/-- The complete state touched by the watcher's main loop: the five parallel
in-memory lists, the CSV file contents (`none` = the loop has not written it
yet), the worksheet contents, the `processed_files` set (as a list), and the
file names present in the watch and processed folders. -/
structure WatcherState where
  image_names : List String
  captions : List String
  extracted_texts : List String
  capt_times : List Nat
  proc_times : List Nat
  csv : Option (List (List String))
  sheet : List (List String)
  processed_files : List String
  watch_folder : List String
  processed_folder : List String
  deriving DecidableEq, Repr

/-- State at the start of the main loop: empty lists, empty
`processed_files`, no CSV written by the loop yet, the watch folder holding
`dir` and the spreadsheet holding whatever it held before (`sheet0`). -/
def initState (dir : List String) (sheet0 : List (List String)) : WatcherState :=
  { image_names := [], captions := [], extracted_texts := [],
    capt_times := [], proc_times := [],
    csv := none, sheet := sheet0,
    processed_files := [], watch_folder := dir, processed_folder := [] }

/-- The fixed column header of the DataFrame written to the CSV and the
sheet: `{"Image Name", "Caption", "Extracted Text", "Processing Time"}`. -/
def header : List String :=
  ["Image Name", "Caption", "Extracted Text", "Processing Time"]

/-- The data rows of the DataFrame built from the four lists that appear in
it (`image_names`, `captions`, `extracted_texts`, `proc_times`; `capt_times`
is collected but never written).  Truncates at the shortest list, as a
column-wise zip does. -/
def dataRows : List String → List String → List String → List Nat → List (List String)
  | n :: ns, c :: cs, e :: es, t :: ts => [n, c, e, toString t] :: dataRows ns cs es ts
  | _, _, _, _ => []

/-- The rows of the DataFrame built from the current state's lists. -/
def rowsOf (st : WatcherState) : List (List String) :=
  dataRows st.image_names st.captions st.extracted_texts st.proc_times

/-- The full table (header plus data rows) written both to the CSV
(`df.to_csv`) and to the sheet
(`[df.columns.tolist()] + df.astype(str).values.tolist()`). -/
def tableOf (st : WatcherState) : List (List String) := header :: rowsOf st

/-- The statement of the per-file try-block at which an exception is raised;
`noFail` means the whole block ran to completion.  The order of the
constructors follows the order of the statements in the source. -/
inductive FailAt
  | openImg | generate | ocr | tts | play | removeAudio
  | move | notify | csvWrite | sheetClear | sheetUpdate | noFail
  deriving DecidableEq, Repr

/-- The environment of one per-file processing attempt: where (if anywhere)
an exception is raised, and the values produced by the model, the OCR and the
timer when those calls complete. -/
structure FileEnv where
  fail_at : FailAt
  caption : String
  ocr_text : String
  time_val : Nat
  deriving Repr

/-- Python `set.add` on the `processed_files` set, modelled on a list. -/
def addSet (l : List String) (f : String) : List String :=
  if f ∈ l then l else l ++ [f]

/-- Effect of `shutil.move(file_path, os.path.join(processed_folder, file))`. -/
def afterMove (st : WatcherState) (f : String) : WatcherState :=
  { st with watch_folder := st.watch_folder.erase f,
            processed_folder := st.processed_folder ++ [f] }

/-- Effect of the five consecutive list appends (`image_names.append(file)`
through `proc_times.append(total_time)`); note that `capt_times` and
`proc_times` receive the same `total_time` value. -/
def afterAppend (st : WatcherState) (f : String) (env : FileEnv) : WatcherState :=
  { st with image_names := st.image_names ++ [f],
            captions := st.captions ++ [clean_text env.caption],
            extracted_texts := st.extracted_texts ++ [clean_text env.ocr_text],
            capt_times := st.capt_times ++ [env.time_val],
            proc_times := st.proc_times ++ [env.time_val] }

/-- Effect of `df.to_csv(csv_path, index=False)`. -/
def afterCsv (st : WatcherState) : WatcherState :=
  { st with csv := some (tableOf st) }

/-- Effect of `worksheet.clear()`. -/
def afterClear (st : WatcherState) : WatcherState :=
  { st with sheet := [] }

/-- Effect of `worksheet.update([df.columns.tolist()] + df.astype(str).values.tolist())`. -/
def afterUpdate (st : WatcherState) : WatcherState :=
  { st with sheet := tableOf st }

/-- Effect of `processed_files.add(file)`. -/
def addProcessed (f : String) (st : WatcherState) : WatcherState :=
  { st with processed_files := addSet st.processed_files f }

/-- The state after the per-file try/except block for file `f` under
environment `env`.  The statements of the block run in source order
(open image, generate caption, OCR, TTS save, playsound, remove audio, move
file, the five appends, success notification, CSV write, sheet clear, sheet
update, `processed_files.add`); an exception at `env.fail_at` discards that
statement's effect and every later one, and the `except` arm only notifies.
The statements up to and including `playsound`/`os.remove`/`shutil.move`
either leave this state unchanged (when they fail) or, for the move, have
the `afterMove` effect. -/
def processState (st : WatcherState) (f : String) (env : FileEnv) : WatcherState :=
  match env.fail_at with
  | .openImg => st
  | .generate => st
  | .ocr => st
  | .tts => st
  | .play => st
  | .removeAudio => st
  | .move => st
  | .notify => afterAppend (afterMove st f) f env
  | .csvWrite => afterAppend (afterMove st f) f env
  | .sheetClear => afterCsv (afterAppend (afterMove st f) f env)
  | .sheetUpdate => afterClear (afterCsv (afterAppend (afterMove st f) f env))
  | .noFail =>
      addProcessed f
        (afterUpdate (afterClear (afterCsv (afterAppend (afterMove st f) f env))))

/-- Observable actions of the watcher.  Completed statements of the per-file
block are tagged with the file name they act for; `notifyError` is the
`except` arm's notification. -/
inductive Event
  | listDir
  | openImg (f : String)
  | generate (f : String)
  | ocr (f : String)
  | ttsSave (f : String)
  | playsound (f : String)
  | removeAudio (f : String)
  | move (f : String)
  | appendData (f : String)
  | notifyProcessed (f : String)
  | csvWrite (f : String)
  | sheetClear (f : String)
  | sheetUpdate (f : String)
  | addProcessed (f : String)
  | notifyError (f : String)
  | sleep (n : Nat)
  deriving DecidableEq, Repr

/-- The file a processing event acts for (`none` for `listDir` and `sleep`). -/
def eventFile : Event → Option String
  | .listDir => none
  | .openImg f => some f
  | .generate f => some f
  | .ocr f => some f
  | .ttsSave f => some f
  | .playsound f => some f
  | .removeAudio f => some f
  | .move f => some f
  | .appendData f => some f
  | .notifyProcessed f => some f
  | .csvWrite f => some f
  | .sheetClear f => some f
  | .sheetUpdate f => some f
  | .addProcessed f => some f
  | .notifyError f => some f
  | .sleep _ => none

/-- The trace of completed actions of the per-file block for file `f`: the
statements before the failing one in source order, followed by the `except`
arm's error notification; the full thirteen-step trace when nothing fails. -/
def fileEvents (f : String) : FailAt → List Event
  | .openImg => [.notifyError f]
  | .generate => [.openImg f, .notifyError f]
  | .ocr => [.openImg f, .generate f, .notifyError f]
  | .tts => [.openImg f, .generate f, .ocr f, .notifyError f]
  | .play => [.openImg f, .generate f, .ocr f, .ttsSave f, .notifyError f]
  | .removeAudio =>
      [.openImg f, .generate f, .ocr f, .ttsSave f, .playsound f, .notifyError f]
  | .move =>
      [.openImg f, .generate f, .ocr f, .ttsSave f, .playsound f, .removeAudio f,
       .notifyError f]
  | .notify =>
      [.openImg f, .generate f, .ocr f, .ttsSave f, .playsound f, .removeAudio f,
       .move f, .appendData f, .notifyError f]
  | .csvWrite =>
      [.openImg f, .generate f, .ocr f, .ttsSave f, .playsound f, .removeAudio f,
       .move f, .appendData f, .notifyProcessed f, .notifyError f]
  | .sheetClear =>
      [.openImg f, .generate f, .ocr f, .ttsSave f, .playsound f, .removeAudio f,
       .move f, .appendData f, .notifyProcessed f, .csvWrite f, .notifyError f]
  | .sheetUpdate =>
      [.openImg f, .generate f, .ocr f, .ttsSave f, .playsound f, .removeAudio f,
       .move f, .appendData f, .notifyProcessed f, .csvWrite f, .sheetClear f,
       .notifyError f]
  | .noFail =>
      [.openImg f, .generate f, .ocr f, .ttsSave f, .playsound f, .removeAudio f,
       .move f, .appendData f, .notifyProcessed f, .csvWrite f, .sheetClear f,
       .sheetUpdate f, .addProcessed f]

/-- The per-file block: its resulting state and its trace. -/
def processFile (st : WatcherState) (f : String) (env : FileEnv) :
    WatcherState × List Event :=
  (processState st f env, fileEvents f env.fail_at)

/-- Helper: Python `f.lower()`, rendered as a character map. -/
def lowerStr (s : String) : String := ⟨s.data.map Char.toLower⟩

/-- Helper: Python `s.endswith(suf)`, rendered on the character lists. -/
def endsWithS (s suf : String) : Bool := suf.data.isSuffixOf s.data

/-- The result of `os.listdir` filtered by
`f.lower().endswith((".png", ".jpg", ".jpeg"))`. -/
def listImages (dir : List String) : List String :=
  dir.filter fun f =>
    endsWithS (lowerStr f) ".png" || endsWithS (lowerStr f) ".jpg" ||
      endsWithS (lowerStr f) ".jpeg"

/-- The `for file in files` body folded over the listing: a file already in
`processed_files` is skipped (`continue`), any other file is processed and
the loop moves to the next file with the updated state. -/
def procAll (envs : String → FileEnv) :
    List String → WatcherState → WatcherState × List Event
  | [], st => (st, [])
  | f :: fs, st =>
      if f ∈ st.processed_files then procAll envs fs st
      else
        let p := processFile st f (envs f)
        let q := procAll envs fs p.1
        (q.1, p.2 ++ q.2)

/-- One iteration of `while True` along the normal path (`os.listdir`
succeeded, no `KeyboardInterrupt`): list the watch folder, run the for-loop
body over the listing, then `time.sleep(2)`.  The watcher-level `except`
arms (notify and `time.sleep(5)` on an `Exception`; `break` on
`KeyboardInterrupt`) sit outside this normal path. -/
def iterBody (st : WatcherState) (envs : String → FileEnv) :
    WatcherState × List Event :=
  let p := procAll envs (listImages st.watch_folder) st
  (p.1, Event.listDir :: p.2 ++ [Event.sleep 2])

/-- The trace of the watcher-level `except Exception` arm: notify, then back
off five seconds before the next iteration. -/
def watcherErrorEvents (e : String) : List Event :=
  [Event.notifyError e, Event.sleep 5]

/-- Running `n` iterations of the main loop. -/
def loopRun (st : WatcherState) (envs : String → FileEnv) :
    Nat → WatcherState × List Event
  | 0 => (st, [])
  | n + 1 =>
      let p := iterBody st envs
      let q := loopRun p.1 envs n
      (q.1, p.2 ++ q.2)

/-- States the watcher can be in at a statement boundary of the main loop:
the initial state, a state with a file newly dropped into the watch folder,
and the state after a per-file block ran on a listed, not yet processed file
(the `FailAt` in `env` covers every truncation of the block, so every
intermediate boundary state of the block is also of this form). -/
inductive Reaches : WatcherState → Prop
  | init (dir : List String) (sheet0 : List (List String)) :
      Reaches (initState dir sheet0)
  | file_arrives {st : WatcherState} (f : String) :
      Reaches st → Reaches { st with watch_folder := st.watch_folder ++ [f] }
  | step {st : WatcherState} (f : String) (env : FileEnv) :
      Reaches st → f ∈ listImages st.watch_folder → f ∉ st.processed_files →
      Reaches (processState st f env)

/-- The rows currently recorded in the CSV file by the loop (`[]` while the
loop has not written it). -/
def csvRowsD (st : WatcherState) : List (List String) :=
  match st.csv with
  | none => []
  | some t => t

/-- Alignment of the five parallel lists: equal lengths, and the captioning
times equal the processing times (the code appends the same `total_time` to
both). -/
def listsAligned (st : WatcherState) : Prop :=
  st.image_names.length = st.captions.length ∧
  st.captions.length = st.extracted_texts.length ∧
  st.extracted_texts.length = st.capt_times.length ∧
  st.capt_times = st.proc_times

/-- Consistency of the CSV with the in-memory lists: either the loop has not
written it, or it holds the header over a snapshot of rows that the current
lists extend. -/
def csvConsistent (st : WatcherState) : Prop :=
  st.csv = none ∨ ∃ ρ, st.csv = some (header :: ρ) ∧ growsTo ρ (rowsOf st)

/-- Written from the wording of claim C5, for comparison with `iterBody`:
one pass of the loop lists the watch directory for files ending in
`.png`/`.jpg`/`.jpeg` (the code's case-insensitive check), processes each
listed file that is not already in the processed set — skipping those that
are — and then sleeps 2 seconds.  A skipped file contributes no events; a
processed file contributes its per-file trace, which on an exception ends
with the notification and nothing else. -/
def specIterEvents (st : WatcherState) (envs : String → FileEnv) : List Event :=
  Event.listDir ::
    ((listImages st.watch_folder).filter
        (fun g => decide (g ∉ st.processed_files))).flatMap
      (fun g => fileEvents g (envs g).fail_at) ++ [Event.sleep 2]

/-- Events that are completions of the model's blocking `generate` call or
the blocking text-to-speech playback for file `f`. -/
def blockingCallEv (f : String) (e : Event) : Prop :=
  e = Event.generate f ∨ e = Event.playsound f

/-- Events that are steps for file `f` coming after the generate and
playback calls in the source: the file move, the data appends, the CSV
write, the sheet clear/update and the processed-set insertion. -/
def laterStepEv (f : String) (e : Event) : Prop :=
  e = Event.move f ∨ e = Event.appendData f ∨ e = Event.csvWrite f ∨
    e = Event.sheetClear f ∨ e = Event.sheetUpdate f ∨ e = Event.addProcessed f

end Watcher

/-! ## The Streamlit app `POC_With_TTS_&_Preset_images.py`

Images are embedded as abstract tokens of type `String`.  Session state
holds `active_image`, `active_caption`, `active_source`, the `processed`
list of image/caption pairs, and `url_input`.  The outcome of each fallible
library call a handler makes (`load_image_from_url`, `Image.open`,
`generate_caption`) is a parameter of type `Except String _` of the
handler's embedding. -/

namespace PocApp

/-- Session state of `POC_With_TTS_&_Preset_images.py`.  The `processed`
entries carry the appended `active_image` (an `Option`, as the session key
itself does) and the caption. -/
structure AppState where
  active_image : Option String
  active_caption : Option String
  active_source : Option String
  processed : List (Option String × String)
  url_input : String
  deriving DecidableEq, Repr

/-- The session-state initialisation block: every key absent in a fresh
session is set (`active_image = None`, `active_caption = None`,
`active_source = None`, `processed = []`, `url_input = ""`). -/
def initState : AppState :=
  { active_image := none, active_caption := none, active_source := none,
    processed := [], url_input := "" }

/-- The function `set_active(img, source)` (lines 83–86): store the image, reset the
caption to `None`, store the source. -/
def set_active (st : AppState) (img source : String) : AppState :=
  { st with active_image := some img, active_caption := none,
            active_source := some source }

/-- A preset button click: `img = safe(lambda: load_image_from_url(url));
if img: set_active(img, f"preset_{name}")`.  `load` is the outcome of
`load_image_from_url`. -/
def presetClick (st : AppState) (name : String) (load : Except String String) :
    AppState :=
  match safe (fun _ => load) with
  | some img => set_active st img ("preset_" ++ name)
  | none => st

/-- The "Load Image from URL" click: `img = safe(...); if img:
set_active(img, "url"); st.session_state.url_input = ""`. -/
def urlLoadClick (st : AppState) (load : Except String String) : AppState :=
  match safe (fun _ => load) with
  | some img => { set_active st img "url" with url_input := "" }
  | none => st

/-- An upload (or camera capture): `set_active(Image.open(...).convert("RGB"),
source)` with no `safe` wrapper, so a failing `Image.open` propagates. -/
def uploadSet (st : AppState) (source : String) (opened : Except String String) :
    Except String AppState :=
  match opened with
  | Except.error e => Except.error e
  | Except.ok img => Except.ok (set_active st img source)

/-- A "Generate Caption" click in this app (all four source branches are
identical): `st.session_state.active_caption = generate_caption(
st.session_state.active_image)` followed by
`st.session_state.processed.append({"image": active_image, "caption":
active_caption})`, with **no** `safe` wrapper and no try/except, so an
exception raised by `generate_caption` (here: `gen = .error e`, or a `None`
active image fed to the processor) propagates out of the handler. -/
def generateClick (st : AppState) (gen : Except String String) :
    Except String AppState :=
  match st.active_image with
  | none => Except.error "TypeError"
  | some _ =>
      match gen with
      | Except.error e => Except.error e
      | Except.ok c =>
          Except.ok { st with active_caption := some c,
                              processed := st.processed ++ [(st.active_image, c)] }

end PocApp

/-! ## The Streamlit app `Preset_image_Website.py` -/

namespace SiteApp

/-- The `st.session_state.current` dict: `{"image": ..., "caption": ...,
"source": ...}`. -/
structure Current where
  image : Option String
  caption : Option String
  source : Option String
  deriving DecidableEq, Repr

/-- Session state of `Preset_image_Website.py`. -/
structure AppState where
  processed : List (Option String × String)
  url_input : String
  current : Current
  deriving DecidableEq, Repr

/-- The session-state initialisation block (lines 57–66): `processed = []`,
`url_input = ""`, `current = {"image": None, "caption": None, "source":
None}`. -/
def initState : AppState :=
  { processed := [], url_input := "",
    current := { image := none, caption := none, source := none } }

/-- The function `set_current(img, source)` (lines 82–85): store the image in
`current["image"]`, reset `current["caption"]` to `None`, store the source. -/
def set_current (st : AppState) (img source : String) : AppState :=
  { st with current := { image := some img, caption := none, source := some source } }

/-- A preset button click: `img = safe(lambda: load_image_from_url(url));
if img: set_current(img, f"preset_{name}")`. -/
def presetClick (st : AppState) (name : String) (load : Except String String) :
    AppState :=
  match safe (fun _ => load) with
  | some img => set_current st img ("preset_" ++ name)
  | none => st

/-- The "Load Image from URL" click in this app. -/
def urlLoadClick (st : AppState) (load : Except String String) : AppState :=
  match safe (fun _ => load) with
  | some img => { set_current st img "url" with url_input := "" }
  | none => st

/-- A "Generate Caption" click in this app (all four source branches are
identical): `current["caption"] = safe(lambda: generate_caption(
current["image"]))`, then `if current["caption"]:` show the caption and
append `{"image": current["image"], "caption": current["caption"]}` to
`processed`.  The Python truthiness test makes both `None` (a swallowed
exception) and the empty string skip the append. -/
def generateClick (st : AppState) (gen : Except String String) : AppState :=
  let cap := safe (fun _ => gen)
  let st1 : AppState := { st with current := { st.current with caption := cap } }
  match cap with
  | none => st1
  | some c =>
      if c = "" then st1
      else { st1 with processed := st1.processed ++ [(st1.current.image, c)] }

end SiteApp

/-! ## The Streamlit app `Py_processor_image_link.py` -/

namespace LinkApp

/-- Messages the app shows via `st.warning` / `st.info`. -/
inductive UIEvent
  | warningMsg (s : String)
  | infoMsg (s : String)
  deriving DecidableEq, Repr

/-- Session state of `Py_processor_image_link.py`: the
`processed_images` list of `(image, caption)` pairs, the URL `text_input`
and the `use_camera` flag. -/
structure AppState where
  processed_images : List (String × String)
  text_input : String
  use_camera : Bool
  deriving DecidableEq, Repr

/-- The session-state initialisation block (`processed_images = []`,
`text_input = ""`, `use_camera = False`). -/
def initState : AppState :=
  { processed_images := [], text_input := "", use_camera := false }

/-- The image-loading block of the Generate tab: `image = None`, then a
try/except around `Image.open` / `requests.get`; a raised exception is
replaced by a warning and `image` stays `None`.  `r = none` embeds "no
source given" (the try body assigns nothing). -/
def loadImage (r : Option (Except String String)) :
    Option String × List UIEvent :=
  match r with
  | none => (none, [])
  | some (Except.ok img) => (some img, [])
  | some (Except.error _) =>
      (none, [UIEvent.warningMsg "Could not load the image. Please check the file or URL."])

/-- The "Generate Caption" click: if the model loaded, a try/except wraps
the captioning; on success the caption is shown and `(image.copy(),
caption)` is appended to `processed_images` and the URL input cleared; a
raised exception becomes a generic warning; a missing model becomes a
warning and nothing runs. -/
def generateClick (st : AppState) (img : String) (modelLoaded : Bool)
    (gen : Except String String) : AppState × List UIEvent :=
  if modelLoaded then
    match gen with
    | Except.ok c =>
        ({ st with processed_images := st.processed_images ++ [(img, c)],
                   text_input := "" }, [])
    | Except.error _ =>
        (st, [UIEvent.warningMsg "Captioning failed. Try a different image or check your connection."])
  else
    (st, [UIEvent.warningMsg "Model is not loaded. Cannot generate captions."])

end LinkApp

/-! ## Claim theorems -/

open Watcher

/-- Claim C1: for every callable `fn`, `safe(fn)` returns the value of
`fn()` when `fn()` raises no exception, and returns `None` when `fn()`
raises any `Exception`; it never propagates the exception to its caller
(the codomain of `safe` is `Option α`, not `Except`, so no exception can
escape it). -/
theorem C1_safe_suppresses {α : Type} (fn : Unit → Except String α) :
    (∀ v, fn () = Except.ok v → safe fn = some v) ∧
    (∀ e, fn () = Except.error e → safe fn = none) := by
  refine ⟨fun v h => ?_, fun e h => ?_⟩ <;> simp [safe, h]

/-- Witness for C1 at a returning and at a raising callable. -/
theorem C1_safe_witness :
    safe (fun _ => (Except.ok 3 : Except String Nat)) = some 3 ∧
    safe (fun _ => (Except.error "boom" : Except String Nat)) = none :=
  ⟨(C1_safe_suppresses (fun _ => Except.ok 3)).1 3 rfl,
   (C1_safe_suppresses (fun _ => Except.error "boom")).2 "boom" rfl⟩

/-- Counterexample to claim C2 as stated: when an exception interrupts the
iteration between the CSV write and the sheet update (here: the
`worksheet.clear()` call raises), the CSV already holds the new row while
the worksheet still holds its previous contents, so the two do **not** hold
the same rows after the CSV write performed by the loop. -/
theorem C2_counterexample :
    (Watcher.processState (Watcher.initState ["a.png"] []) "a.png"
        ⟨Watcher.FailAt.sheetClear, "a cat", "hello", 3⟩).csv =
      some [Watcher.header, ["a.png", "a cat", "hello", "3"]] ∧
    (Watcher.processState (Watcher.initState ["a.png"] []) "a.png"
        ⟨Watcher.FailAt.sheetClear, "a cat", "hello", 3⟩).sheet = [] ∧
    (Watcher.processState (Watcher.initState ["a.png"] []) "a.png"
        ⟨Watcher.FailAt.sheetClear, "a cat", "hello", 3⟩).csv ≠
      some ((Watcher.processState (Watcher.initState ["a.png"] []) "a.png"
        ⟨Watcher.FailAt.sheetClear, "a cat", "hello", 3⟩).sheet) := by
  refine ⟨by decide, by decide, by decide⟩

/-- Claim C2 as amended: after every per-file block of the watcher's loop
that completes without an exception, the worksheet contents equal the CSV
contents — both are the header plus the data rows built from the parallel
lists; when an exception interrupts the block between the CSV write and the
sheet update the two differ (see the counterexample). -/
theorem C2_mirror_after_success (st : WatcherState) (f : String) (env : FileEnv)
    (h : env.fail_at = FailAt.noFail) :
    (processState st f env).csv = some ((processState st f env).sheet) ∧
    (processState st f env).sheet = tableOf (afterAppend (afterMove st f) f env) := by
  obtain ⟨fa, c, o, t⟩ := env
  cases h
  exact ⟨rfl, rfl⟩

/-- Witness for C2 at a concrete successful iteration. -/
theorem C2_mirror_witness :
    (processState (initState ["a.png"] []) "a.png"
        ⟨FailAt.noFail, "a cat", "hello", 3⟩).csv =
      some ((processState (initState ["a.png"] []) "a.png"
        ⟨FailAt.noFail, "a cat", "hello", 3⟩).sheet) :=
  (C2_mirror_after_success (initState ["a.png"] []) "a.png"
      ⟨FailAt.noFail, "a cat", "hello", 3⟩ rfl).1

/-- Counterexample to claim C4 as stated: in
`POC_With_TTS_&_Preset_images.py` the "Generate Caption" handler calls
`generate_caption` with no `safe` wrapper and no try/except, so an error
raised while generating a caption propagates out of the handler (the
handler's embedding returns `Except.error`, i.e. an uncaught exception)
instead of being swallowed. -/
theorem C4_counterexample :
    PocApp.generateClick
      { active_image := some "img0", active_caption := none,
        active_source := some "preset_Flies", processed := [], url_input := "" }
      (Except.error "RuntimeError") = Except.error "RuntimeError" := rfl

/-- Claim C4 as amended: errors raised while loading an image from a URL or
a preset in both preset apps are swallowed by `safe` (the state is left
unchanged); in `Preset_image_Website.py` a raised captioning error is
swallowed into a `None` caption with no append; in
`Py_processor_image_link.py` raised loading and captioning errors are
swallowed into generic warning messages; but in
`POC_With_TTS_&_Preset_images.py` an error raised by `generate_caption`
(and by the unguarded `Image.open` on upload/camera input) propagates
uncaught out of the handler. -/
theorem C4_error_swallowing :
    (∀ (st : SiteApp.AppState) (e : String),
        SiteApp.generateClick st (Except.error e) =
          { st with current := { st.current with caption := none } }) ∧
    (∀ (st : SiteApp.AppState) (name e : String),
        SiteApp.presetClick st name (Except.error e) = st) ∧
    (∀ (st : SiteApp.AppState) (e : String),
        SiteApp.urlLoadClick st (Except.error e) = st) ∧
    (∀ (st : LinkApp.AppState) (img e : String),
        LinkApp.generateClick st img true (Except.error e) =
          (st, [LinkApp.UIEvent.warningMsg
            "Captioning failed. Try a different image or check your connection."])) ∧
    (∀ (e : String),
        LinkApp.loadImage (some (Except.error e)) =
          (none, [LinkApp.UIEvent.warningMsg
            "Could not load the image. Please check the file or URL."])) ∧
    (∀ (st : PocApp.AppState) (name e : String),
        PocApp.presetClick st name (Except.error e) = st) ∧
    (∀ (st : PocApp.AppState) (e : String),
        PocApp.urlLoadClick st (Except.error e) = st) ∧
    (∀ (st : PocApp.AppState) (e : String),
        PocApp.generateClick st (Except.error e) = Except.error e ∨
        PocApp.generateClick st (Except.error e) = Except.error "TypeError") ∧
    (∀ (st : PocApp.AppState) (source e : String),
        PocApp.uploadSet st source (Except.error e) = Except.error e) := by
  refine ⟨fun st e => rfl, fun st name e => rfl, fun st e => rfl,
      fun st img e => rfl, fun e => rfl, fun st name e => rfl, fun st e => rfl,
      fun st e => ?_, fun st source e => rfl⟩
  cases h : st.active_image <;> simp [PocApp.generateClick, h]

/-- Counterexample to claim C6 as stated: in `Preset_image_Website.py`, a
caption generation that succeeds but returns the empty string (a falsy
Python value) is filtered out by the `if current["caption"]:` truthiness
test: the caption is stored (`some ""`, so the generation did succeed) yet
no `(image, caption)` pair is appended to the per-session `processed`
list. -/
theorem C6_counterexample :
    (SiteApp.generateClick
        { processed := [], url_input := "",
          current := { image := some "img0", caption := none,
                       source := some "upload" } }
        (Except.ok "")).current.caption = some "" ∧
    (SiteApp.generateClick
        { processed := [], url_input := "",
          current := { image := some "img0", caption := none,
                       source := some "upload" } }
        (Except.ok "")).processed = [] := ⟨rfl, rfl⟩

/-- Claim C6 as amended: in `POC_With_TTS_&_Preset_images.py` and
`Py_processor_image_link.py` every successful caption generation appends
exactly one pair — the active image with the string just generated — to the
per-session list; in `Preset_image_Website.py` this holds only when the
generated caption is non-empty, an empty caption being treated as falsy and
appending nothing.  No other handler appends to the list, and the list is
empty at the start of a fresh session. -/
theorem C6_append_exactly_one :
    (∀ (st : PocApp.AppState) (img c : String), st.active_image = some img →
        PocApp.generateClick st (Except.ok c) =
          Except.ok { st with active_caption := some c,
                              processed := st.processed ++ [(some img, c)] }) ∧
    (∀ (st : SiteApp.AppState) (c : String), c ≠ "" →
        (SiteApp.generateClick st (Except.ok c)).processed =
          st.processed ++ [(st.current.image, c)]) ∧
    (∀ (st : SiteApp.AppState),
        (SiteApp.generateClick st (Except.ok "")).processed = st.processed) ∧
    (∀ (st : LinkApp.AppState) (img c : String),
        (LinkApp.generateClick st img true (Except.ok c)).1.processed_images =
          st.processed_images ++ [(img, c)]) ∧
    (∀ (st : PocApp.AppState) (img source : String),
        (PocApp.set_active st img source).processed = st.processed) ∧
    (∀ (st : PocApp.AppState) (name : String) (r : Except String String),
        (PocApp.presetClick st name r).processed = st.processed) ∧
    (∀ (st : PocApp.AppState) (r : Except String String),
        (PocApp.urlLoadClick st r).processed = st.processed) ∧
    (∀ (st : PocApp.AppState) (source : String) (r : Except String String)
        (st' : PocApp.AppState),
        PocApp.uploadSet st source r = Except.ok st' →
        st'.processed = st.processed) ∧
    (∀ (st : SiteApp.AppState) (img source : String),
        (SiteApp.set_current st img source).processed = st.processed) ∧
    (∀ (st : SiteApp.AppState) (name : String) (r : Except String String),
        (SiteApp.presetClick st name r).processed = st.processed) ∧
    (∀ (st : SiteApp.AppState) (r : Except String String),
        (SiteApp.urlLoadClick st r).processed = st.processed) ∧
    PocApp.initState.processed = [] ∧
    SiteApp.initState.processed = [] ∧
    LinkApp.initState.processed_images = [] := by
  refine ⟨fun st img c h => ?_, fun st c h => ?_, fun st => rfl,
      fun st img c => rfl, fun st img source => rfl, fun st name r => ?_,
      fun st r => ?_, fun st source r st' h => ?_, fun st img source => rfl,
      fun st name r => ?_, fun st r => ?_, rfl, rfl, rfl⟩
  · simp [PocApp.generateClick, h]
  · simp [SiteApp.generateClick, safe, h]
  · unfold PocApp.presetClick
    cases safe (fun _ => r) <;> simp [PocApp.set_active]
  · unfold PocApp.urlLoadClick
    cases safe (fun _ => r) <;> simp [PocApp.set_active]
  · unfold PocApp.uploadSet at h
    cases r with
    | error e => cases h
    | ok img => cases h; rfl
  · unfold SiteApp.presetClick
    cases safe (fun _ => r) <;> simp [SiteApp.set_current]
  · unfold SiteApp.urlLoadClick
    cases safe (fun _ => r) <;> simp [SiteApp.set_current]

/-- Witness for C6 at concrete inputs, discharging each hypothesis. -/
theorem C6_append_witness :
    PocApp.generateClick
        { active_image := some "i", active_caption := none,
          active_source := some "upload", processed := [], url_input := "" }
        (Except.ok "a cat") =
      Except.ok
        { active_image := some "i", active_caption := some "a cat",
          active_source := some "upload", processed := [(some "i", "a cat")],
          url_input := "" } ∧
    (SiteApp.generateClick
        { processed := [], url_input := "",
          current := { image := some "i", caption := none,
                       source := some "upload" } }
        (Except.ok "a cat")).processed = [(some "i", "a cat")] ∧
    (PocApp.uploadSet PocApp.initState "upload" (Except.ok "i")).map
        PocApp.AppState.processed = Except.ok [] := by
  refine ⟨?_, ?_, ?_⟩
  · exact C6_append_exactly_one.1
      { active_image := some "i", active_caption := none,
        active_source := some "upload", processed := [], url_input := "" }
      "i" "a cat" rfl
  · exact C6_append_exactly_one.2.1
      { processed := [], url_input := "",
        current := { image := some "i", caption := none,
                     source := some "upload" } }
      "a cat" (by decide)
  · have h := C6_append_exactly_one.2.2.2.2.2.2.2.1 PocApp.initState "upload"
      (Except.ok "i") (PocApp.set_active PocApp.initState "i" "upload") rfl
    simp only [PocApp.uploadSet, Except.map]
    exact congrArg Except.ok h

/-- Claim C10: in both preset-image apps, selecting a new active image via
`set_active` / `set_current` always resets the stored caption to `None`
while setting the image and the source, so immediately after any image
selection no caption from a previously selected image is retained in the
session state. -/
theorem C10_selection_resets_caption (pst : PocApp.AppState)
    (sst : SiteApp.AppState) (img source : String) :
    (PocApp.set_active pst img source).active_caption = none ∧
    (PocApp.set_active pst img source).active_image = some img ∧
    (PocApp.set_active pst img source).active_source = some source ∧
    (SiteApp.set_current sst img source).current.caption = none ∧
    (SiteApp.set_current sst img source).current.image = some img ∧
    (SiteApp.set_current sst img source).current.source = some source :=
  ⟨rfl, rfl, rfl, rfl, rfl, rfl⟩

/-! ## Lemmas about the watcher -/

namespace Watcher

theorem dataRows_append (ns : List String) :
    ∀ (cs es : List String) (ts : List Nat) (n c e : String) (t : Nat),
      growsTo (dataRows ns cs es ts)
        (dataRows (ns ++ [n]) (cs ++ [c]) (es ++ [e]) (ts ++ [t])) := by
  induction ns with
  | nil => intro cs es ts n c e t; exact growsTo_nil _
  | cons hd tl ih =>
      intro cs es ts n c e t
      cases cs with
      | nil => exact growsTo_nil _
      | cons c0 cs =>
        cases es with
        | nil => exact growsTo_nil _
        | cons e0 es =>
          cases ts with
          | nil => exact growsTo_nil _
          | cons t0 ts =>
            simp only [dataRows, List.cons_append]
            exact growsTo_cons _ (ih cs es ts n c e t)

theorem rowsOf_afterAppend (st : WatcherState) (f : String) (env : FileEnv) :
    growsTo (rowsOf st) (rowsOf (afterAppend (afterMove st f) f env)) := by
  simp only [rowsOf, afterAppend, afterMove]
  exact dataRows_append _ _ _ _ _ _ _ _

theorem growsTo_rowsOf_process (st : WatcherState) (f : String) (env : FileEnv) :
    growsTo (rowsOf st) (rowsOf (processState st f env)) := by
  obtain ⟨fa, c, o, t⟩ := env
  cases fa <;>
    first
      | exact growsTo_refl _
      | exact rowsOf_afterAppend st f ⟨_, c, o, t⟩

theorem processed_mono (st : WatcherState) (f : String) (env : FileEnv)
    (g : String) (hg : g ∈ st.processed_files) :
    g ∈ (processState st f env).processed_files := by
  obtain ⟨fa, c, o, t⟩ := env
  cases fa <;> try exact hg
  show g ∈ addSet st.processed_files f
  unfold addSet
  split
  · exact hg
  · simp [List.mem_append, hg]

theorem processed_mem_iff (st : WatcherState) (f : String) (env : FileEnv)
    (g : String) (hne : g ≠ f) :
    (g ∈ (processState st f env).processed_files) ↔ g ∈ st.processed_files := by
  obtain ⟨fa, c, o, t⟩ := env
  cases fa <;> try exact Iff.rfl
  show g ∈ addSet st.processed_files f ↔ _
  unfold addSet
  split
  · exact Iff.rfl
  · simp [List.mem_append, hne]

theorem eventFile_fileEvents {f : String} {fa : FailAt} {e : Event}
    (he : e ∈ fileEvents f fa) : eventFile e = some f := by
  cases fa <;> fin_cases he <;> rfl

theorem procAll_no_f_events (envs : String → FileEnv) (f : String) :
    ∀ (fs : List String) (st : WatcherState), f ∈ st.processed_files →
      ∀ e ∈ (procAll envs fs st).2, eventFile e ≠ some f := by
  intro fs
  induction fs with
  | nil => intro st _ e he; simp [procAll] at he
  | cons g fs ih =>
      intro st hf e he
      by_cases hg : g ∈ st.processed_files
      · simp only [procAll, if_pos hg] at he
        exact ih st hf e he
      · simp only [procAll, if_neg hg, processFile, List.mem_append] at he
        rcases he with he | he
        · rw [eventFile_fileEvents he]
          intro hc
          have hgf : g = f := by injection hc
          exact hg (hgf ▸ hf)
        · exact ih (processState st g (envs g))
            (processed_mono st g (envs g) f hf) e he

theorem procAll_events (envs : String → FileEnv) :
    ∀ (fs : List String) (st : WatcherState), fs.Nodup →
      (procAll envs fs st).2 =
        (fs.filter (fun g => decide (g ∉ st.processed_files))).flatMap
          (fun g => fileEvents g (envs g).fail_at) := by
  intro fs
  induction fs with
  | nil => intro st _; simp [procAll]
  | cons g fs ih =>
      intro st hnd
      rw [List.nodup_cons] at hnd
      obtain ⟨hgfs, hnd'⟩ := hnd
      by_cases hg : g ∈ st.processed_files
      · simp only [procAll, if_pos hg, ih st hnd', List.filter_cons]
        rw [if_neg (by simp [hg])]
      · simp only [procAll, if_neg hg, processFile, List.filter_cons]
        rw [if_pos (by simp [hg]), List.flatMap_cons,
          ih (processState st g (envs g)) hnd']
        have hfilter :
            fs.filter (fun a =>
                decide (a ∉ (processState st g (envs g)).processed_files)) =
              fs.filter (fun a => decide (a ∉ st.processed_files)) := by
          apply List.filter_congr
          intro a ha
          have hne : a ≠ g := fun hh => hgfs (hh ▸ ha)
          exact decide_eq_decide.mpr
            (not_congr (processed_mem_iff st g (envs g) a hne))
        rw [hfilter]

theorem reaches_listsAligned {st : WatcherState} (h : Reaches st) :
    listsAligned st := by
  induction h with
  | init dir sheet0 => exact ⟨rfl, rfl, rfl, rfl⟩
  | file_arrives f _ ih => exact ih
  | step f env _ _ _ ih =>
      obtain ⟨h1, h2, h3, h4⟩ := ih
      obtain ⟨fa, c, o, t⟩ := env
      cases fa <;> try exact ⟨h1, h2, h3, h4⟩
      all_goals
        refine ⟨?_, ?_, ?_, ?_⟩ <;>
          simp [listsAligned, processState, addProcessed, afterUpdate,
            afterClear, afterCsv, afterAppend, afterMove, h1, h2, h3, h4]

theorem reaches_csvConsistent {st : WatcherState} (h : Reaches st) :
    csvConsistent st := by
  induction h with
  | init dir sheet0 => exact Or.inl rfl
  | file_arrives f _ ih =>
      rcases ih with h0 | ⟨ρ, hcsv, hρ⟩
      · exact Or.inl h0
      · exact Or.inr ⟨ρ, hcsv, hρ⟩
  | step f env _ _ _ ih =>
      obtain ⟨fa, c, o, t⟩ := env
      cases fa <;> try exact ih
      -- the five branches whose state moved past the appends
      case notify | csvWrite =>
        rcases ih with h0 | ⟨ρ, hcsv, hρ⟩
        · exact Or.inl h0
        · exact Or.inr ⟨ρ, hcsv,
            growsTo_trans hρ (rowsOf_afterAppend _ f ⟨_, c, o, t⟩)⟩
      case sheetClear | sheetUpdate | noFail =>
        exact Or.inr ⟨rowsOf (afterAppend (afterMove _ f) f ⟨_, c, o, t⟩),
          rfl, growsTo_refl _⟩

end Watcher

/-- Counterexample to claim C3 as stated: the spreadsheet row set is not
append-only.  After a first fully successful iteration the sheet holds a
recorded data row; a second iteration whose `worksheet.update` call raises
(after `worksheet.clear()` succeeded) leaves the sheet empty, removing the
previously recorded row. -/
theorem C3_counterexample :
    (Watcher.processState (Watcher.initState ["a.png", "b.png"] []) "a.png"
        ⟨Watcher.FailAt.noFail, "c1", "t1", 1⟩).sheet =
      [Watcher.header, ["a.png", "c1", "t1", "1"]] ∧
    (Watcher.processState
        (Watcher.processState (Watcher.initState ["a.png", "b.png"] []) "a.png"
          ⟨Watcher.FailAt.noFail, "c1", "t1", 1⟩)
        "b.png" ⟨Watcher.FailAt.sheetUpdate, "c2", "t2", 2⟩).sheet = [] ∧
    ¬ growsTo
        (Watcher.processState (Watcher.initState ["a.png", "b.png"] []) "a.png"
          ⟨Watcher.FailAt.noFail, "c1", "t1", 1⟩).sheet
        (Watcher.processState
          (Watcher.processState (Watcher.initState ["a.png", "b.png"] []) "a.png"
            ⟨Watcher.FailAt.noFail, "c1", "t1", 1⟩)
          "b.png" ⟨Watcher.FailAt.sheetUpdate, "c2", "t2", 2⟩).sheet := by
  refine ⟨by decide, by decide, ?_⟩
  intro hgrow
  obtain ⟨t, ht⟩ := hgrow
  rw [show (Watcher.processState
        (Watcher.processState (Watcher.initState ["a.png", "b.png"] []) "a.png"
          ⟨Watcher.FailAt.noFail, "c1", "t1", 1⟩)
        "b.png" ⟨Watcher.FailAt.sheetUpdate, "c2", "t2", 2⟩).sheet = [] from by decide,
      show (Watcher.processState (Watcher.initState ["a.png", "b.png"] []) "a.png"
          ⟨Watcher.FailAt.noFail, "c1", "t1", 1⟩).sheet =
        [Watcher.header, ["a.png", "c1", "t1", "1"]] from by decide] at ht
  simp at ht

/-- Claim C3 as amended: the watcher's in-memory row set is append-only
across every step, the CSV rows recorded by the loop are append-only across
every step (each CSV write dumps the current rows, which extend every
earlier snapshot), the spreadsheet gains rows across every *completed*
clear-then-update rewrite starting from a loop-written table, and each
Streamlit app's per-session processed list is append-only across every
caption-generation handler run.  (The sheet part cannot be unconditional:
an exception between `worksheet.clear()` and `worksheet.update` removes
rows — see the counterexample.) -/
theorem C3_append_only :
    (∀ (st : Watcher.WatcherState) (f : String) (env : Watcher.FileEnv),
        growsTo (Watcher.rowsOf st) (Watcher.rowsOf (Watcher.processState st f env))) ∧
    (∀ (st : Watcher.WatcherState) (f : String) (env : Watcher.FileEnv),
        Watcher.Reaches st →
        growsTo (Watcher.csvRowsD st)
          (Watcher.csvRowsD (Watcher.processState st f env))) ∧
    (∀ (st : Watcher.WatcherState) (f : String) (env : Watcher.FileEnv)
        (ρ : List (List String)),
        st.sheet = Watcher.header :: ρ → growsTo ρ (Watcher.rowsOf st) →
        env.fail_at = Watcher.FailAt.noFail →
        growsTo st.sheet (Watcher.processState st f env).sheet) ∧
    (∀ (st : PocApp.AppState) (gen : Except String String) (st' : PocApp.AppState),
        PocApp.generateClick st gen = Except.ok st' →
        growsTo st.processed st'.processed) ∧
    (∀ (st : SiteApp.AppState) (gen : Except String String),
        growsTo st.processed (SiteApp.generateClick st gen).processed) ∧
    (∀ (st : LinkApp.AppState) (img : String) (b : Bool)
        (gen : Except String String),
        growsTo st.processed_images
          (LinkApp.generateClick st img b gen).1.processed_images) := by
  refine ⟨Watcher.growsTo_rowsOf_process, ?_, ?_, ?_, ?_, ?_⟩
  · intro st f env hr
    rcases Watcher.reaches_csvConsistent hr with h0 | ⟨ρ, hcsv, hρ⟩
    · simp only [Watcher.csvRowsD, h0]
      exact growsTo_nil _
    · obtain ⟨fa, c, o, t⟩ := env
      have hgrow := growsTo_trans hρ
        (Watcher.rowsOf_afterAppend st f ⟨fa, c, o, t⟩)
      cases fa <;>
        simp only [Watcher.processState, Watcher.csvRowsD,
          Watcher.addProcessed, Watcher.afterUpdate, Watcher.afterClear,
          Watcher.afterCsv, Watcher.afterAppend, Watcher.afterMove,
          Watcher.tableOf, hcsv] <;>
        first
          | exact growsTo_refl _
          | exact growsTo_cons _ hgrow
  · intro st f env ρ hsheet hρ hfa
    obtain ⟨fa, c, o, t⟩ := env
    cases hfa
    rw [hsheet]
    exact growsTo_cons _ (growsTo_trans hρ
      (Watcher.rowsOf_afterAppend st f ⟨_, c, o, t⟩))
  · intro st gen st' h
    unfold PocApp.generateClick at h
    cases himg : st.active_image with
    | none => rw [himg] at h; cases h
    | some img =>
        rw [himg] at h
        cases gen with
        | error e => cases h
        | ok c =>
            cases h
            exact growsTo_append _ _
  · intro st gen
    unfold SiteApp.generateClick safe
    cases gen with
    | error e => exact growsTo_refl _
    | ok c =>
        by_cases hc : c = ""
        · simp [hc]; exact growsTo_refl _
        · simp [hc]; exact growsTo_append _ _
  · intro st img b gen
    unfold LinkApp.generateClick
    cases b with
    | false => exact growsTo_refl _
    | true =>
        cases gen with
        | error e => exact growsTo_refl _
        | ok c => exact growsTo_append _ _

/-- Witness for C3 at concrete inputs, discharging each hypothesis. -/
theorem C3_append_witness :
    growsTo (Watcher.csvRowsD (Watcher.initState ["a.png"] []))
      (Watcher.csvRowsD (Watcher.processState (Watcher.initState ["a.png"] [])
        "a.png" ⟨Watcher.FailAt.noFail, "c", "t", 1⟩)) ∧
    growsTo (Watcher.initState ["a.png"] [Watcher.header]).sheet
      (Watcher.processState (Watcher.initState ["a.png"] [Watcher.header])
        "a.png" ⟨Watcher.FailAt.noFail, "c", "t", 1⟩).sheet ∧
    growsTo
      (PocApp.AppState.processed
        { active_image := some "i", active_caption := none,
          active_source := some "upload", processed := [], url_input := "" })
      (PocApp.AppState.processed
        { active_image := some "i", active_caption := some "c",
          active_source := some "upload", processed := [(some "i", "c")],
          url_input := "" }) := by
  refine ⟨?_, ?_, ?_⟩
  · exact C3_append_only.2.1 (Watcher.initState ["a.png"] []) "a.png"
      ⟨Watcher.FailAt.noFail, "c", "t", 1⟩ (Watcher.Reaches.init ["a.png"] [])
  · exact C3_append_only.2.2.1 (Watcher.initState ["a.png"] [Watcher.header])
      "a.png" ⟨Watcher.FailAt.noFail, "c", "t", 1⟩ [] rfl (growsTo_nil _) rfl
  · exact C3_append_only.2.2.2.1
      { active_image := some "i", active_caption := none,
        active_source := some "upload", processed := [], url_input := "" }
      (Except.ok "c")
      { active_image := some "i", active_caption := some "c",
        active_source := some "upload", processed := [(some "i", "c")],
        url_input := "" } rfl

/-- Claim C5: one normal iteration of the watcher's main loop performs, in
order: list the watch directory for files ending in `.png`/`.jpg`/`.jpeg`
(case-insensitively, as the code's `lower().endswith` does), process each
listed file that is not already in the processed set — skipping those that
are — then sleep 2 seconds; and the loop repeats this body.  A per-file
exception triggers no recovery beyond the error notification ending that
file's trace (built into `fileEvents`), after which the loop continues with
the next file.  Stated as equality of the code's iteration trace with
`specIterEvents`, written from the claim's wording.  (The `Nodup` hypothesis
reflects that `os.listdir` returns distinct names.  Outside this normal
path the code's watcher-level handler notifies and backs off five seconds
on an `Exception`, and a `KeyboardInterrupt` — not an `Exception` in
Python — stops the loop.) -/
theorem C5_loop_shape (st : Watcher.WatcherState)
    (envs : String → Watcher.FileEnv) (h : st.watch_folder.Nodup) :
    (Watcher.iterBody st envs).2 = Watcher.specIterEvents st envs ∧
    ∀ n, (Watcher.loopRun st envs (n + 1)).2 =
      (Watcher.iterBody st envs).2 ++
        (Watcher.loopRun (Watcher.iterBody st envs).1 envs n).2 := by
  constructor
  · have hnd : (Watcher.listImages st.watch_folder).Nodup := by
      unfold Watcher.listImages
      exact List.Nodup.filter _ h
    simp only [Watcher.iterBody, Watcher.specIterEvents]
    rw [Watcher.procAll_events envs (Watcher.listImages st.watch_folder) st hnd]
  · intro n; rfl

/-- Witness for C5 at a concrete directory listing. -/
theorem C5_witness :
    (Watcher.iterBody (Watcher.initState ["a.png", "b.txt"] [])
        (fun _ => ⟨Watcher.FailAt.noFail, "c", "t", 1⟩)).2 =
      Watcher.specIterEvents (Watcher.initState ["a.png", "b.txt"] [])
        (fun _ => ⟨Watcher.FailAt.noFail, "c", "t", 1⟩) :=
  (C5_loop_shape (Watcher.initState ["a.png", "b.txt"] [])
    (fun _ => ⟨Watcher.FailAt.noFail, "c", "t", 1⟩) (by decide)).1

/-- Claim C7: within each per-file trace of the watcher, every completed
blocking call to the model's `generate` or to the text-to-speech playback
occurs before every step that comes after them for that file (the file
move, data appends, CSV write, sheet clear/update, processed-set insert):
the trace splits as `xs ++ ys` with all generate/playback events in `xs`
and all later steps in `ys`.  Moreover the iteration trace is the
concatenation of the per-file traces in listing order followed by the
sleep, so all events of a file precede all events of any later file and no
two files are processed in parallel. -/
theorem C7_blocking_order :
    (∀ (f : String) (fa : Watcher.FailAt), ∃ xs ys,
        Watcher.fileEvents f fa = xs ++ ys ∧
        (∀ e ∈ xs, ¬ Watcher.laterStepEv f e) ∧
        (∀ e ∈ ys, ¬ Watcher.blockingCallEv f e)) ∧
    (∀ (st : Watcher.WatcherState) (envs : String → Watcher.FileEnv),
        st.watch_folder.Nodup →
        (Watcher.iterBody st envs).2 =
          Watcher.Event.listDir ::
            ((Watcher.listImages st.watch_folder).filter
                (fun g => decide (g ∉ st.processed_files))).flatMap
              (fun g => Watcher.fileEvents g (envs g).fail_at) ++
            [Watcher.Event.sleep 2]) := by
  constructor
  · intro f fa
    cases fa
    case openImg =>
      exact ⟨[Watcher.Event.notifyError f], [], rfl,
        by simp [Watcher.laterStepEv], by simp⟩
    case generate =>
      exact ⟨[Watcher.Event.openImg f, Watcher.Event.notifyError f], [], rfl,
        by simp [Watcher.laterStepEv], by simp⟩
    case ocr =>
      exact ⟨[Watcher.Event.openImg f, Watcher.Event.generate f,
          Watcher.Event.notifyError f], [], rfl,
        by simp [Watcher.laterStepEv], by simp⟩
    case tts =>
      exact ⟨[Watcher.Event.openImg f, Watcher.Event.generate f,
          Watcher.Event.ocr f, Watcher.Event.notifyError f], [], rfl,
        by simp [Watcher.laterStepEv], by simp⟩
    case play =>
      exact ⟨[Watcher.Event.openImg f, Watcher.Event.generate f,
          Watcher.Event.ocr f, Watcher.Event.ttsSave f,
          Watcher.Event.notifyError f], [], rfl,
        by simp [Watcher.laterStepEv], by simp⟩
    case removeAudio =>
      exact ⟨[Watcher.Event.openImg f, Watcher.Event.generate f,
          Watcher.Event.ocr f, Watcher.Event.ttsSave f,
          Watcher.Event.playsound f, Watcher.Event.notifyError f], [], rfl,
        by simp [Watcher.laterStepEv], by simp⟩
    case move =>
      exact ⟨[Watcher.Event.openImg f, Watcher.Event.generate f,
          Watcher.Event.ocr f, Watcher.Event.ttsSave f,
          Watcher.Event.playsound f, Watcher.Event.removeAudio f,
          Watcher.Event.notifyError f], [], rfl,
        by simp [Watcher.laterStepEv], by simp⟩
    case notify =>
      exact ⟨[Watcher.Event.openImg f, Watcher.Event.generate f,
          Watcher.Event.ocr f, Watcher.Event.ttsSave f,
          Watcher.Event.playsound f, Watcher.Event.removeAudio f],
        [Watcher.Event.move f, Watcher.Event.appendData f,
          Watcher.Event.notifyError f],
        rfl, by simp [Watcher.laterStepEv], by simp [Watcher.blockingCallEv]⟩
    case csvWrite =>
      exact ⟨[Watcher.Event.openImg f, Watcher.Event.generate f,
          Watcher.Event.ocr f, Watcher.Event.ttsSave f,
          Watcher.Event.playsound f, Watcher.Event.removeAudio f],
        [Watcher.Event.move f, Watcher.Event.appendData f,
          Watcher.Event.notifyProcessed f, Watcher.Event.notifyError f],
        rfl, by simp [Watcher.laterStepEv], by simp [Watcher.blockingCallEv]⟩
    case sheetClear =>
      exact ⟨[Watcher.Event.openImg f, Watcher.Event.generate f,
          Watcher.Event.ocr f, Watcher.Event.ttsSave f,
          Watcher.Event.playsound f, Watcher.Event.removeAudio f],
        [Watcher.Event.move f, Watcher.Event.appendData f,
          Watcher.Event.notifyProcessed f, Watcher.Event.csvWrite f,
          Watcher.Event.notifyError f],
        rfl, by simp [Watcher.laterStepEv], by simp [Watcher.blockingCallEv]⟩
    case sheetUpdate =>
      exact ⟨[Watcher.Event.openImg f, Watcher.Event.generate f,
          Watcher.Event.ocr f, Watcher.Event.ttsSave f,
          Watcher.Event.playsound f, Watcher.Event.removeAudio f],
        [Watcher.Event.move f, Watcher.Event.appendData f,
          Watcher.Event.notifyProcessed f, Watcher.Event.csvWrite f,
          Watcher.Event.sheetClear f, Watcher.Event.notifyError f],
        rfl, by simp [Watcher.laterStepEv], by simp [Watcher.blockingCallEv]⟩
    case noFail =>
      exact ⟨[Watcher.Event.openImg f, Watcher.Event.generate f,
          Watcher.Event.ocr f, Watcher.Event.ttsSave f,
          Watcher.Event.playsound f, Watcher.Event.removeAudio f],
        [Watcher.Event.move f, Watcher.Event.appendData f,
          Watcher.Event.notifyProcessed f, Watcher.Event.csvWrite f,
          Watcher.Event.sheetClear f, Watcher.Event.sheetUpdate f,
          Watcher.Event.addProcessed f],
        rfl, by simp [Watcher.laterStepEv], by simp [Watcher.blockingCallEv]⟩
  · intro st envs h
    have hnd : (Watcher.listImages st.watch_folder).Nodup := by
      unfold Watcher.listImages
      exact List.Nodup.filter _ h
    simp only [Watcher.iterBody]
    rw [Watcher.procAll_events envs (Watcher.listImages st.watch_folder) st hnd]

/-- Witness for C7 at a concrete one-file iteration, with the trace fully
evaluated. -/
theorem C7_witness :
    (Watcher.iterBody (Watcher.initState ["a.png"] [])
        (fun _ => ⟨Watcher.FailAt.noFail, "c", "t", 1⟩)).2 =
      [Watcher.Event.listDir, Watcher.Event.openImg "a.png",
       Watcher.Event.generate "a.png", Watcher.Event.ocr "a.png",
       Watcher.Event.ttsSave "a.png", Watcher.Event.playsound "a.png",
       Watcher.Event.removeAudio "a.png", Watcher.Event.move "a.png",
       Watcher.Event.appendData "a.png", Watcher.Event.notifyProcessed "a.png",
       Watcher.Event.csvWrite "a.png", Watcher.Event.sheetClear "a.png",
       Watcher.Event.sheetUpdate "a.png", Watcher.Event.addProcessed "a.png",
       Watcher.Event.sleep 2] :=
  (C7_blocking_order.2 (Watcher.initState ["a.png"] [])
      (fun _ => ⟨Watcher.FailAt.noFail, "c", "t", 1⟩) (by decide)).trans
    (by decide)

/-- Claim C8: at every reachable point of the watcher's execution the five
parallel lists have equal lengths, and the recorded captioning time equals
the recorded processing time at every index (the code appends the same
`total_time` to both lists). -/
theorem C8_parallel_lists (st : Watcher.WatcherState) (h : Watcher.Reaches st) :
    st.image_names.length = st.captions.length ∧
    st.captions.length = st.extracted_texts.length ∧
    st.extracted_texts.length = st.capt_times.length ∧
    st.capt_times.length = st.proc_times.length ∧
    st.capt_times = st.proc_times ∧
    ∀ (i : Nat) (h1 : i < st.capt_times.length) (h2 : i < st.proc_times.length),
      st.capt_times.get ⟨i, h1⟩ = st.proc_times.get ⟨i, h2⟩ := by
  obtain ⟨a1, a2, a3, a4⟩ := Watcher.reaches_listsAligned h
  refine ⟨a1, a2, a3, by rw [a4], a4, ?_⟩
  have key : ∀ (l1 l2 : List Nat), l1 = l2 →
      ∀ (i : Nat) (h1 : i < l1.length) (h2 : i < l2.length),
        l1.get ⟨i, h1⟩ = l2.get ⟨i, h2⟩ := by
    intro l1 l2 hl
    subst hl
    intro i h1 h2
    rfl
  exact key _ _ a4

/-- Witness for C8 at the initial state. -/
theorem C8_witness :
    (Watcher.initState [] []).capt_times = (Watcher.initState [] []).proc_times :=
  (C8_parallel_lists (Watcher.initState [] [])
    (Watcher.Reaches.init [] [])).2.2.2.2.1

/-- Claim C9: within a run of the watcher a file name is fully processed at
most once: the per-file block adds the name to `processed_files` exactly
when it runs to completion (captioning, OCR, playback, move, CSV write and
sheet update all succeeded), an exception anywhere in the block leaves
`processed_files` unchanged, membership in `processed_files` is never lost,
and a name present in `processed_files` is skipped by every later poll —
its iteration trace contains no event for that name. -/
theorem C9_processed_once :
    (∀ (st : Watcher.WatcherState) (f : String) (env : Watcher.FileEnv),
        env.fail_at = Watcher.FailAt.noFail →
        (Watcher.processState st f env).processed_files =
          Watcher.addSet st.processed_files f) ∧
    (∀ (st : Watcher.WatcherState) (f : String) (env : Watcher.FileEnv),
        env.fail_at ≠ Watcher.FailAt.noFail →
        (Watcher.processState st f env).processed_files = st.processed_files) ∧
    (∀ (st : Watcher.WatcherState) (f : String) (env : Watcher.FileEnv)
        (g : String), g ∈ st.processed_files →
        g ∈ (Watcher.processState st f env).processed_files) ∧
    (∀ (st : Watcher.WatcherState) (envs : String → Watcher.FileEnv)
        (f : String), f ∈ st.processed_files →
        ∀ e ∈ (Watcher.iterBody st envs).2, Watcher.eventFile e ≠ some f) := by
  refine ⟨?_, ?_, Watcher.processed_mono, ?_⟩
  · intro st f env h
    obtain ⟨fa, c, o, t⟩ := env
    cases h
    rfl
  · intro st f env h
    obtain ⟨fa, c, o, t⟩ := env
    cases fa <;> first | rfl | exact absurd rfl h
  · intro st envs f hf e he
    simp only [Watcher.iterBody, List.mem_cons, List.mem_append,
      List.mem_singleton] at he
    rcases he with (rfl | he) | (rfl | hfalse)
    · simp [Watcher.eventFile]
    · exact Watcher.procAll_no_f_events envs f
        (Watcher.listImages st.watch_folder) st hf e he
    · simp [Watcher.eventFile]
    · exact absurd hfalse (List.not_mem_nil _)

/-- Witness for C9 at concrete inputs, discharging each hypothesis. -/
theorem C9_witness :
    (Watcher.processState (Watcher.initState ["a.png"] []) "a.png"
        ⟨Watcher.FailAt.noFail, "c", "t", 1⟩).processed_files = ["a.png"] ∧
    (Watcher.processState (Watcher.initState ["a.png"] []) "a.png"
        ⟨Watcher.FailAt.generate, "c", "t", 1⟩).processed_files = [] ∧
    (Watcher.processState (Watcher.initState ["a.png"] []) "a.png"
        ⟨Watcher.FailAt.noFail, "c", "t", 1⟩).processed_files ≠ [] ∧
    Watcher.eventFile Watcher.Event.listDir ≠ some "a.png" := by
  refine ⟨?_, ?_, ?_, ?_⟩
  · rw [C9_processed_once.1 (Watcher.initState ["a.png"] []) "a.png"
      ⟨Watcher.FailAt.noFail, "c", "t", 1⟩ rfl]
    decide
  · rw [C9_processed_once.2.1 (Watcher.initState ["a.png"] []) "a.png"
      ⟨Watcher.FailAt.generate, "c", "t", 1⟩ (by decide)]
    rfl
  · intro hnil
    have hmem := C9_processed_once.2.2.1 (Watcher.initState ["a.png"] [])
      "b.png" ⟨Watcher.FailAt.noFail, "c", "t", 1⟩ "a.png"
    rw [show (Watcher.initState ["a.png"] []).processed_files = [] from rfl] at hmem
    have := C9_processed_once.1 (Watcher.initState ["a.png"] []) "a.png"
      ⟨Watcher.FailAt.noFail, "c", "t", 1⟩ rfl
    rw [this] at hnil
    exact absurd hnil (by decide)
  · exact C9_processed_once.2.2.2
      { Watcher.initState ["a.png"] [] with processed_files := ["a.png"] }
      (fun _ => ⟨Watcher.FailAt.noFail, "c", "t", 1⟩) "a.png" (by decide)
      Watcher.Event.listDir (by decide)

end SciProj
